import Mathlib

/-!
# Dropdown widget: selection logic

A shallow embedding of the selection logic of
`src/components/Form/Dropdown.js`: the normalisation of the initial `value`
prop, the `selectItem` event handler, `getSelectedList` and
`defaultRenderSelectionSummary`.

Modelling conventions.

* JavaScript values that can occur as identifiers or property values are
  `JSVal`: `undefined`, a string, or a number.  Number identifiers are
  modelled as integers; strict equality `===` on these values is structural
  equality.
* An Option record is an association list from property names to values;
  reading a property that is not there yields `undefined`.
* `Array.prototype.find` yields `undefined` on a miss; an array slot that
  holds either an object or `undefined` is an `Option JSObj`.
* A JavaScript exception is the `error` case of `Except JSError`.
* The calls that `selectItem` makes on its collaborators (the form context
  sink, the overlay, the state setter, `onChange`) are recorded, in order, in
  a list of `Effect`.
* What is on screen is what the last render put there.  The setter of
  `useState` re-renders the component only when it is handed a value other
  than the one it holds (compared with `Object.is`, so by identity for
  arrays); `Widget`, `mount` and `click` follow the widget through its own
  renders, for a widget that no parent re-renders.
-/

namespace Dropdown

/-- The JavaScript values that occur as identifiers and property values. -/
inductive JSVal where
  | undefined
  | str (s : String)
  | num (n : Int)
  deriving DecidableEq, Repr

/-- An Option record: property names with their values. -/
abbrev JSObj := List (String × JSVal)

/-- Property read `obj[key]`: `undefined` when the property is missing. -/
def JSObj.get (obj : JSObj) (key : String) : JSVal :=
  match obj.lookup key with
  | some v => v
  | none => JSVal.undefined

/-- The `value` prop: a single value or an array of identifiers. -/
inductive ValueProp where
  | scalar (v : JSVal)
  | array (xs : List JSVal)
  deriving DecidableEq, Repr

/-- Truthiness of the `value` prop, as `if (value)` tests it: the empty string,
the number zero and `undefined` are falsy, every array is truthy. -/
def ValueProp.truthy : ValueProp → Bool
  | .scalar .undefined => false
  | .scalar (.str s) => s != ""
  | .scalar (.num n) => n != 0
  | .array _ => true

/-- The exceptions the modelled code can raise. -/
inductive JSError where
  | typeError (msg : String)
  deriving DecidableEq, Repr

/-- A prop or context member that is meant to hold a callback: either a
function or anything else (absent, or a value of another type). -/
inductive Callback where
  | function
  | notFunction
  deriving DecidableEq, Repr

/-- The test `typeof(cb) === "function"`. -/
def Callback.typeofIsFunction : Callback → Bool
  | .function => true
  | .notFunction => false

/-- The second argument of `onValueChange`: a bare identifier (single-select)
or the selection array (multi-select). -/
inductive FieldValue where
  | bare (id : JSVal)
  | sequence (ids : List JSVal)
  deriving DecidableEq, Repr

/-- The calls `selectItem` makes on its collaborators. -/
inductive Effect where
  | onValueChange (name : String) (value : FieldValue)
  | hideModal
  | setSelected (selected : List JSVal)
  | onChange (selected : List JSVal)
  deriving DecidableEq, Repr

/-- A JavaScript call `cb(...)`: recorded when `cb` is a function, a
`TypeError` otherwise. -/
def call (cb : Callback) (e : Effect) (log : List Effect) : Except JSError (List Effect) :=
  match cb with
  | .function => .ok (log ++ [e])
  | .notFunction => .error (.typeError "not a function")

/-- Worker of `indexOf`: scan from position `i`. -/
def indexOfFrom : List JSVal → JSVal → Nat → Int
  | [], _, _ => -1
  | y :: ys, x, i => if y = x then (i : Int) else indexOfFrom ys x (i + 1)

/-- The method `Array.prototype.indexOf`: position of the first element strictly
equal to `x`, or `-1`. -/
def indexOf (xs : List JSVal) (x : JSVal) : Int :=
  indexOfFrom xs x 0

/-- Lines 35-39: `selectedIds.map(id => options.find(obj => obj[idAttribute] === id))`. -/
def getSelectedList (options : List JSObj) (selectedIds : List JSVal) (idAttribute : String) :
    List (Option JSObj) :=
  selectedIds.map (fun id => options.find? (fun obj => decide (obj.get idAttribute = id)))

/-- Lines 41-52: the text `summaryString` that `defaultRenderSelectionSummary`
places in the activator.  Reading `["name"]` off an `undefined` first slot is
a `TypeError`. -/
def defaultRenderSelectionSummary (selectedItems : List (Option JSObj)) (multiSelect : Bool)
    (noSelectionLabel : String) : Except JSError JSVal :=
  let selectedCount := selectedItems.length
  if multiSelect then
    .ok (if selectedCount != 0 then .str (toString selectedCount ++ " selected")
         else .str noSelectionLabel)
  else
    if selectedCount != 0 then
      match selectedItems.head? with
      | some (some obj) => .ok (obj.get "name")
      | _ => .error (.typeError "cannot read property name of undefined")
    else .ok (.str noSelectionLabel)

/-- Lines 82-85: the initial selection computed from the `value` prop. -/
def initialSelected (value : ValueProp) : List JSVal :=
  if value.truthy then
    match value with
    | .array xs => xs
    | .scalar v => [v]
  else []

/-- Lines 91-109: the handler `selectItem(id)`, run on the current selection
`selected`.  Returns the selection handed to `setSelected` together with the
calls made, in order. -/
def selectItem (multiSelect : Bool) (name : String) (onValueChange onChange : Callback)
    (selected : List JSVal) (id : JSVal) : Except JSError (List JSVal × List Effect) := do
  let (selected1, log1) ←
    if multiSelect then
      if indexOf selected id = -1 then
        let pushed := selected ++ [id]
        let log ←
          if onValueChange.typeofIsFunction then
            call onValueChange (.onValueChange name (.sequence pushed)) []
          else pure []
        pure (pushed, log)
      else pure (selected, [])
    else
      let replaced := [id]
      let log ←
        if onValueChange.typeofIsFunction then
          call onValueChange (.onValueChange name (.bare id)) []
        else pure []
      pure (replaced, log ++ [Effect.hideModal])
  let log2 := log1 ++ [Effect.setSelected selected1]
  let log3 ← if onChange.typeofIsFunction then call onChange (.onChange selected1) log2
             else pure log2
  pure (selected1, log3)

/-- A sequence of clicks: `selectItem` applied in turn, each on the selection
the previous one left. -/
def selectItems (multiSelect : Bool) (name : String) (onValueChange onChange : Callback) :
    List JSVal → List JSVal → Except JSError (List JSVal)
  | selected, [] => .ok selected
  | selected, id :: ids =>
    match selectItem multiSelect name onValueChange onChange selected id with
    | .ok (selected1, _) => selectItems multiSelect name onValueChange onChange selected1 ids
    | .error e => .error e

/-- The activator text of a render: the default summary of the resolved
selection (lines 111 and 119-123). -/
def summaryText (options : List JSObj) (selected : List JSVal) (idAttribute : String)
    (multiSelect : Bool) (noSelectionLabel : String) : Except JSError JSVal :=
  defaultRenderSelectionSummary (getSelectedList options selected idAttribute) multiSelect
    noSelectionLabel

/-- The `onValueChange` calls of a log, in order. -/
def valueChangeCalls : List Effect → List (String × FieldValue)
  | [] => []
  | .onValueChange n v :: es => (n, v) :: valueChangeCalls es
  | _ :: es => valueChangeCalls es

/-- The `onChange` calls of a log, in order. -/
def onChangeCalls : List Effect → List (List JSVal)
  | [] => []
  | .onChange s :: es => s :: onChangeCalls es
  | _ :: es => onChangeCalls es

/-- Specification side: the clicked identifiers without repetition, in order of
first click. -/
def firstClicks : List JSVal → List JSVal
  | [] => []
  | x :: xs => x :: (firstClicks xs).filter (fun y => decide (y ≠ x))

/-- One multi-select click as a pure function on the selection. -/
def pushIfAbsent (S : List JSVal) (x : JSVal) : List JSVal :=
  if x ∈ S then S else S ++ [x]

/-- The options of the end-to-end scenarios: Apple and Banana. -/
def fruitOptions : List JSObj :=
  [[("id", JSVal.str "A"), ("name", JSVal.str "Apple")],
   [("id", JSVal.str "B"), ("name", JSVal.str "Banana")]]

/-- The click sequence A, A, B of the multi-select scenario. -/
def clicksAAB : List JSVal :=
  [JSVal.str "A", JSVal.str "A", JSVal.str "B"]

/-- The widget between two events: the contents of the state array, and the
activator text that the last render of the widget put on screen. -/
structure Widget where
  selected : List JSVal
  activator : Except JSError JSVal

/-- The first render: `useState(initialSelected)` at line 86, then the summary of
lines 111 and 119-123. -/
def mount (options : List JSObj) (value : ValueProp) (idAttribute : String)
    (multiSelect : Bool) (noSelectionLabel : String) : Widget :=
  ⟨initialSelected value,
   summaryText options (initialSelected value) idAttribute multiSelect noSelectionLabel⟩

/-- Whether the array handed to `setSelected` at line 104 is the very array held
as state.  In multi-select mode it is: `selected` is never reassigned, line 94
pushes into the state array in place.  In single-select mode it is not: line 98
assigns a fresh array `[id]`. -/
def setSelectedSameArray (multiSelect : Bool) : Bool :=
  multiSelect

/-- One click on a widget that stands alone: no form context sink and no
`onChange`, hence no parent that could re-render it.  The handler `selectItem`
runs on the state array; the widget renders again, and the activator text is
computed anew, only when `setSelected` was handed an array other than the one
held as state. -/
def click (multiSelect : Bool) (name : String) (options : List JSObj) (idAttribute : String)
    (noSelectionLabel : String) (w : Widget) (id : JSVal) : Except JSError Widget :=
  match selectItem multiSelect name Callback.notFunction Callback.notFunction w.selected id with
  | .ok (selected1, _) =>
    if setSelectedSameArray multiSelect then .ok ⟨selected1, w.activator⟩
    else .ok ⟨selected1, summaryText options selected1 idAttribute multiSelect noSelectionLabel⟩
  | .error e => .error e

/-- A sequence of clicks on a widget that stands alone. -/
def clickAll (multiSelect : Bool) (name : String) (options : List JSObj) (idAttribute : String)
    (noSelectionLabel : String) : Widget → List JSVal → Except JSError Widget
  | w, [] => .ok w
  | w, id :: ids =>
    match click multiSelect name options idAttribute noSelectionLabel w id with
    | .ok w1 => clickAll multiSelect name options idAttribute noSelectionLabel w1 ids
    | .error e => .error e

/-! ## Auxiliary lemmas -/

theorem indexOfFrom_eq_neg_one_iff (xs : List JSVal) (x : JSVal) (i : Nat) :
    indexOfFrom xs x i = -1 ↔ x ∉ xs := by
  induction xs generalizing i with
  | nil => simp [indexOfFrom]
  | cons y ys ih =>
    by_cases h : y = x
    · subst h
      simp only [indexOfFrom, if_true, List.mem_cons, true_or, not_true_eq_false, iff_false]
      omega
    · have h2 : ¬ x = y := fun e => h e.symm
      simp [indexOfFrom, h, h2, ih]

theorem indexOf_eq_neg_one_iff (xs : List JSVal) (x : JSVal) :
    indexOf xs x = -1 ↔ x ∉ xs :=
  indexOfFrom_eq_neg_one_iff xs x 0

/-- The multi-select handler on a miss: the identifier is pushed. -/
theorem selectItem_multi_absent (name : String) (cv co : Callback) (S : List JSVal) (X : JSVal)
    (h : X ∉ S) :
    ∃ log, selectItem true name cv co S X = .ok (S ++ [X], log) := by
  have hi : indexOf S X = -1 := (indexOf_eq_neg_one_iff S X).2 h
  cases cv <;> cases co <;>
    simp [selectItem, hi, call, Callback.typeofIsFunction, bind, Except.bind, pure, Except.pure]

/-- The multi-select handler on a hit: the selection is handed on as it is. -/
theorem selectItem_multi_present (name : String) (cv co : Callback) (S : List JSVal) (X : JSVal)
    (h : X ∈ S) :
    ∃ log, selectItem true name cv co S X = .ok (S, log) := by
  have hi : ¬ indexOf S X = -1 := fun e => (indexOf_eq_neg_one_iff S X).1 e h
  cases cv <;> cases co <;>
    simp [selectItem, hi, call, Callback.typeofIsFunction, bind, Except.bind, pure, Except.pure]

/-- The single-select handler: the selection is replaced. -/
theorem selectItem_single_ok (name : String) (cv co : Callback) (S : List JSVal) (X : JSVal) :
    ∃ log, selectItem false name cv co S X = .ok ([X], log) := by
  cases cv <;> cases co <;>
    simp [selectItem, call, Callback.typeofIsFunction, bind, Except.bind, pure, Except.pure]

/-- On a non-empty click sequence the single-select widget ends with a
one-element selection. -/
theorem selectItems_single_cons (name : String) (cv co : Callback) (S : List JSVal)
    (x : JSVal) (xs : List JSVal) :
    ∃ y, selectItems false name cv co S (x :: xs) = .ok [y] := by
  induction xs generalizing S x with
  | nil =>
    obtain ⟨log, hlog⟩ := selectItem_single_ok name cv co S x
    exact ⟨x, by simp [selectItems, hlog]⟩
  | cons z zs ih =>
    obtain ⟨log, hlog⟩ := selectItem_single_ok name cv co S x
    obtain ⟨y, hy⟩ := ih [x] z
    exact ⟨y, by rw [selectItems, hlog]; exact hy⟩

theorem selectItems_multi_eq_foldl (name : String) (cv co : Callback) (S : List JSVal)
    (clicks : List JSVal) :
    selectItems true name cv co S clicks = .ok (clicks.foldl pushIfAbsent S) := by
  induction clicks generalizing S with
  | nil => simp [selectItems]
  | cons x xs ih =>
    by_cases h : x ∈ S
    · obtain ⟨log, hlog⟩ := selectItem_multi_present name cv co S x h
      rw [selectItems, hlog]
      simpa [pushIfAbsent, h] using ih S
    · obtain ⟨log, hlog⟩ := selectItem_multi_absent name cv co S x h
      rw [selectItems, hlog]
      simpa [pushIfAbsent, h] using ih (S ++ [x])

theorem foldl_pushIfAbsent (S : List JSVal) (clicks : List JSVal) :
    clicks.foldl pushIfAbsent S
      = S ++ (firstClicks clicks).filter (fun y => decide (y ∉ S)) := by
  induction clicks generalizing S with
  | nil => simp [firstClicks]
  | cons x xs ih =>
    by_cases h : x ∈ S
    · simp only [List.foldl_cons, pushIfAbsent, h, if_true, firstClicks]
      rw [ih S, List.filter_cons]
      simp only [h, not_true_eq_false, decide_False, Bool.false_eq_true, if_false,
        List.filter_filter]
      congr 1
      apply List.filter_congr
      intro y _
      by_cases hy : y ∈ S
      · simp [hy]
      · have : y ≠ x := fun e => hy (e ▸ h)
        simp [hy, this]
    · simp only [List.foldl_cons, pushIfAbsent, h, if_false, firstClicks]
      rw [ih (S ++ [x]), List.filter_cons]
      simp only [h, not_false_eq_true, decide_True, if_true, List.filter_filter,
        List.append_assoc, List.singleton_append]
      congr 2
      apply List.filter_congr
      intro y _
      by_cases hy : y ∈ S <;> by_cases hx : y = x <;> simp [hy, hx]

theorem mem_firstClicks (clicks : List JSVal) (x : JSVal) :
    x ∈ firstClicks clicks ↔ x ∈ clicks := by
  induction clicks with
  | nil => simp [firstClicks]
  | cons y ys ih =>
    by_cases h : x = y <;> simp [firstClicks, List.mem_filter, ih, h]

theorem nodup_firstClicks (clicks : List JSVal) : (firstClicks clicks).Nodup := by
  induction clicks with
  | nil => simp [firstClicks]
  | cons y ys ih =>
    simp only [firstClicks, List.nodup_cons]
    exact ⟨by simp [List.mem_filter], ih.filter _⟩

theorem length_getSelectedList (options : List JSObj) (ids : List JSVal) (idAttribute : String) :
    (getSelectedList options ids idAttribute).length = ids.length := by
  simp [getSelectedList]

/-! ## The claims -/

/-- C1. Multi-select `selectItem`: when `X` is not in the selection `S` the new
selection is `S` with `X` appended at the end, when `X` is in `S` the new
selection is `S` itself, and clicking `X` twice leaves the same selection as
clicking it once. -/
theorem selectItem_multi_append_or_keep (name : String) (cv co : Callback) (S : List JSVal)
    (X : JSVal) :
    (∃ log, selectItem true name cv co S X = .ok (if X ∈ S then S else S ++ [X], log)) ∧
    selectItems true name cv co S [X, X] = .ok (if X ∈ S then S else S ++ [X]) ∧
    selectItems true name cv co S [X, X] = selectItems true name cv co S [X] := by
  by_cases h : X ∈ S
  · obtain ⟨log, hlog⟩ := selectItem_multi_present name cv co S X h
    simp [h, selectItems, hlog]
  · obtain ⟨log, hlog⟩ := selectItem_multi_absent name cv co S X h
    obtain ⟨log2, hlog2⟩ := selectItem_multi_present name cv co (S ++ [X]) X (by simp)
    simp [h, selectItems, hlog, hlog2]

/-- C2. Single-select `selectItem`: whatever the prior selection `S`, the new
selection is the one-element sequence `[X]` and `hideModal` is called exactly
once; from `["A"]`, selecting `"B"` gives `["B"]`. -/
theorem selectItem_single_replaces (name : String) (cv co : Callback) (S : List JSVal)
    (X : JSVal) :
    (∃ log, selectItem false name cv co S X = .ok ([X], log) ∧
      log.count Effect.hideModal = 1) ∧
    selectItems false name cv co [JSVal.str "A"] [JSVal.str "B"] = .ok [JSVal.str "B"] := by
  constructor
  · cases cv <;> cases co <;>
      simp [selectItem, call, Callback.typeofIsFunction, bind, Except.bind, pure, Except.pure]
  · obtain ⟨log, hlog⟩ := selectItem_single_ok name cv co [JSVal.str "A"] (JSVal.str "B")
    simp [selectItems, hlog]

/-- C6. Form-context notification, with `onValueChange` a function: in multi-select
mode a click on an unselected `X` calls `onValueChange` exactly once, with the field
name and the whole updated sequence, and a click on a selected `X` makes no such
call; in single-select mode a click calls it exactly once with the field name and
the bare identifier. -/
theorem selectItem_notifies_form_context (name : String) (co : Callback) (S : List JSVal)
    (X : JSVal) :
    (∃ log, selectItem true name Callback.function co S X
        = .ok (if X ∈ S then S else S ++ [X], log) ∧
      valueChangeCalls log =
        if X ∈ S then [] else [(name, FieldValue.sequence (S ++ [X]))]) ∧
    (∃ log, selectItem false name Callback.function co S X = .ok ([X], log) ∧
      valueChangeCalls log = [(name, FieldValue.bare X)]) := by
  constructor
  · by_cases h : X ∈ S
    · have hi : ¬ indexOf S X = -1 := fun e => (indexOf_eq_neg_one_iff S X).1 e h
      cases co <;>
        simp [selectItem, hi, h, call, Callback.typeofIsFunction, bind, Except.bind, pure,
          Except.pure, valueChangeCalls]
    · have hi : indexOf S X = -1 := (indexOf_eq_neg_one_iff S X).2 h
      cases co <;>
        simp [selectItem, hi, h, call, Callback.typeofIsFunction, bind, Except.bind, pure,
          Except.pure, valueChangeCalls]
  · cases co <;>
      simp [selectItem, call, Callback.typeofIsFunction, bind, Except.bind, pure,
        Except.pure, valueChangeCalls]

/-- C7. Optional callbacks: in both modes `selectItem` returns normally for every
combination of callbacks; `onChange` is called exactly once, with the resulting
selection as a sequence, when it is a function and not at all otherwise; a
context sink that is not a function is never called; and the resulting
selection is the one obtained with both callbacks present. -/
theorem selectItem_guards_callbacks (multiSelect : Bool) (name : String) (cv co : Callback)
    (S : List JSVal) (X : JSVal) :
    ∃ sel,
      (∃ log, selectItem multiSelect name cv co S X = .ok (sel, log) ∧
        onChangeCalls log = if co.typeofIsFunction then [sel] else []) ∧
      (∃ log, selectItem multiSelect name Callback.notFunction co S X = .ok (sel, log) ∧
        valueChangeCalls log = []) ∧
      (∃ log, selectItem multiSelect name Callback.function Callback.function S X
        = .ok (sel, log)) := by
  cases multiSelect
  · refine ⟨[X], ?_, ?_, ?_⟩ <;> cases cv <;> cases co <;>
      simp [selectItem, call, Callback.typeofIsFunction, bind, Except.bind, pure,
        Except.pure, valueChangeCalls, onChangeCalls]
  · by_cases h : X ∈ S
    · have hi : ¬ indexOf S X = -1 := fun e => (indexOf_eq_neg_one_iff S X).1 e h
      refine ⟨S, ?_, ?_, ?_⟩ <;> cases cv <;> cases co <;>
        simp [selectItem, hi, call, Callback.typeofIsFunction, bind, Except.bind, pure,
          Except.pure, valueChangeCalls, onChangeCalls]
    · have hi : indexOf S X = -1 := (indexOf_eq_neg_one_iff S X).2 h
      refine ⟨S ++ [X], ?_, ?_, ?_⟩ <;> cases cv <;> cases co <;>
        simp [selectItem, hi, call, Callback.typeofIsFunction, bind, Except.bind, pure,
          Except.pure, valueChangeCalls, onChangeCalls]

/-- C8. Default summary text over `N` resolved Options: in multi-select mode it is
`"N selected"` when `N > 0` and the no-selection label when `N = 0`; in
single-select mode it is the `name` of the first Option when `N > 0` and the
no-selection label when `N = 0`; with no options and no selection it is the
no-selection label. -/
theorem defaultRenderSelectionSummary_text (items : List JSObj) (noSelectionLabel : String)
    (idAttribute : String) (multiSelect : Bool) :
    defaultRenderSelectionSummary (items.map some) true noSelectionLabel
      = .ok (if items.length = 0 then JSVal.str noSelectionLabel
             else JSVal.str (toString items.length ++ " selected")) ∧
    defaultRenderSelectionSummary (items.map some) false noSelectionLabel
      = .ok (match items with
             | [] => JSVal.str noSelectionLabel
             | first :: _ => first.get "name") ∧
    summaryText [] [] idAttribute multiSelect noSelectionLabel
      = .ok (JSVal.str noSelectionLabel) := by
  refine ⟨?_, ?_, ?_⟩
  · cases items <;> simp [defaultRenderSelectionSummary]
  · cases items <;> simp [defaultRenderSelectionSummary]
  · cases multiSelect <;> simp [summaryText, getSelectedList, defaultRenderSelectionSummary]

/-- The selection after a multi-select click trace: starting from the empty
selection, after any sequence of clicks on identifiers of options the state
array holds the clicked identifiers without repetition in order of first
click, and every one of them resolves to an option. -/
theorem multi_select_selection_trace (name : String) (cv co : Callback) (options : List JSObj)
    (idAttribute : String) (clicks : List JSVal)
    (hclicks : ∀ c ∈ clicks, ∃ o ∈ options, o.get idAttribute = c) :
    selectItems true name cv co (initialSelected (ValueProp.array [])) clicks
      = .ok (firstClicks clicks) ∧
    (firstClicks clicks).Nodup ∧
    (∀ x, x ∈ firstClicks clicks ↔ x ∈ clicks) ∧
    (firstClicks clicks).length = clicks.toFinset.card ∧
    (∀ r ∈ getSelectedList options (firstClicks clicks) idAttribute,
      ∃ o ∈ options, r = some o) := by
  have hlen : (firstClicks clicks).length = clicks.toFinset.card := by
    rw [← List.toFinset_card_of_nodup (nodup_firstClicks clicks)]
    congr 1
    ext x
    simp [mem_firstClicks]
  refine ⟨?_, nodup_firstClicks clicks, mem_firstClicks clicks, hlen, ?_⟩
  · rw [selectItems_multi_eq_foldl, foldl_pushIfAbsent]
    simp [initialSelected, ValueProp.truthy]
  · intro r hr
    simp only [getSelectedList, List.mem_map] at hr
    obtain ⟨c, hc, rfl⟩ := hr
    obtain ⟨o, ho, hoc⟩ := hclicks c ((mem_firstClicks clicks c).1 hc)
    cases hf : List.find? (fun obj => decide (JSObj.get obj idAttribute = c)) options with
    | none =>
      have := List.find?_eq_none.1 hf o ho
      simp [hoc] at this
    | some o2 => exact ⟨o2, List.mem_of_find?_eq_some hf, rfl⟩

/-- What a render computes in multi-select mode, were one to take place on the
selection `selected`: the count of its entries, or the no-selection label. -/
theorem summaryText_multi_count (options : List JSObj) (selected : List JSVal)
    (idAttribute noSelectionLabel : String) :
    summaryText options selected idAttribute true noSelectionLabel
      = .ok (if selected.length = 0 then JSVal.str noSelectionLabel
             else JSVal.str (toString selected.length ++ " selected")) := by
  simp only [summaryText, defaultRenderSelectionSummary, length_getSelectedList]
  by_cases hk : selected.length = 0 <;> simp [hk]

/-- A multi-select widget that stands alone never renders again after a click:
whatever the clicks, the state array follows them and the activator keeps the
text of the first render. -/
theorem clickAll_multi_activator (name : String) (options : List JSObj)
    (idAttribute noSelectionLabel : String) (w : Widget) (clicks : List JSVal) :
    clickAll true name options idAttribute noSelectionLabel w clicks
      = .ok ⟨clicks.foldl pushIfAbsent w.selected, w.activator⟩ := by
  induction clicks generalizing w with
  | nil => simp [clickAll]
  | cons x xs ih =>
    by_cases h : x ∈ w.selected
    · obtain ⟨log, hlog⟩ :=
        selectItem_multi_present name Callback.notFunction Callback.notFunction w.selected x h
      simp only [clickAll, click, hlog, setSelectedSameArray, if_true]
      rw [ih]
      simp [pushIfAbsent, h]
    · obtain ⟨log, hlog⟩ :=
        selectItem_multi_absent name Callback.notFunction Callback.notFunction w.selected x h
      simp only [clickAll, click, hlog, setSelectedSameArray, if_true]
      rw [ih]
      simp [pushIfAbsent, h]

/-- The selections of the multi-select scenario after the clicks A, A, B, and the
summary texts that a render of each of these selections computes. -/
theorem fruit_click_trace :
    selectItems true "fruit" Callback.function Callback.function [] [JSVal.str "A"]
      = .ok [JSVal.str "A"] ∧
    selectItems true "fruit" Callback.function Callback.function [] [JSVal.str "A", JSVal.str "A"]
      = .ok [JSVal.str "A"] ∧
    selectItems true "fruit" Callback.function Callback.function [] clicksAAB
      = .ok [JSVal.str "A", JSVal.str "B"] ∧
    summaryText fruitOptions [JSVal.str "A"] "id" true "Select" = .ok (JSVal.str "1 selected") ∧
    summaryText fruitOptions [JSVal.str "A", JSVal.str "B"] "id" true "Select"
      = .ok (JSVal.str "2 selected") :=
  ⟨rfl, rfl, rfl, rfl, rfl⟩

/-- C10. The multi-select scenario on a widget outside a form and without
`onChange`: options Apple and Banana, initial `value` `[]`.  The first render
shows `"Select"`.  After the click on A the state array is `["A"]` and after
the clicks A, A, B it is `["A", "B"]`, as the claim says, but the activator
still reads `"Select"` and not `"1 selected"` or `"2 selected"`: line 104 hands
`setSelected` the state array itself, so no render follows.  The single-select
handler, which builds a fresh array, does render: after the click on A the
activator reads `"Apple"`. -/
theorem multi_select_activator_stale :
    mount fruitOptions (ValueProp.array []) "id" true "Select"
      = ⟨[], .ok (JSVal.str "Select")⟩ ∧
    clickAll true "fruit" fruitOptions "id" "Select"
        (mount fruitOptions (ValueProp.array []) "id" true "Select") [JSVal.str "A"]
      = .ok ⟨[JSVal.str "A"], .ok (JSVal.str "Select")⟩ ∧
    clickAll true "fruit" fruitOptions "id" "Select"
        (mount fruitOptions (ValueProp.array []) "id" true "Select") clicksAAB
      = .ok ⟨[JSVal.str "A", JSVal.str "B"], .ok (JSVal.str "Select")⟩ ∧
    summaryText fruitOptions [JSVal.str "A", JSVal.str "B"] "id" true "Select"
      = .ok (JSVal.str "2 selected") ∧
    clickAll false "fruit" fruitOptions "id" "Select"
        (mount fruitOptions (ValueProp.array []) "id" false "Select") [JSVal.str "A"]
      = .ok ⟨[JSVal.str "A"], .ok (JSVal.str "Apple")⟩ :=
  ⟨rfl, rfl, rfl, rfl, rfl⟩

/-- C3. On the options `[Apple]` and the selection `["Z", "A"]` the resolved list
has two entries, the first being the `undefined` that `find` returned for the
unmatched `"Z"`: the miss is kept as a placeholder, not dropped. -/
theorem getSelectedList_keeps_miss :
    getSelectedList [[("id", JSVal.str "A"), ("name", JSVal.str "Apple")]]
        [JSVal.str "Z", JSVal.str "A"] "id"
      = [none, some [("id", JSVal.str "A"), ("name", JSVal.str "Apple")]] := by
  decide

/-- C4. The initial `value` prop `0`, a number identifier, gives the empty initial
selection and not the one-element sequence `[0]`. -/
theorem initialSelected_zero :
    initialSelected (ValueProp.scalar (JSVal.num 0)) = [] ∧
    initialSelected (ValueProp.scalar (JSVal.num 0)) ≠ [JSVal.num 0] := by
  decide

/-- What the normalisation of `value` does on the other inputs: a non-empty string
or a non-zero number becomes a one-element sequence, a sequence is kept as it
is, the empty string gives the empty sequence. -/
theorem initialSelected_cases (s : String) (n : Int) (xs : List JSVal) :
    (s ≠ "" → initialSelected (ValueProp.scalar (JSVal.str s)) = [JSVal.str s]) ∧
    (n ≠ 0 → initialSelected (ValueProp.scalar (JSVal.num n)) = [JSVal.num n]) ∧
    initialSelected (ValueProp.array xs) = xs ∧
    initialSelected (ValueProp.scalar (JSVal.str "")) = [] := by
  refine ⟨?_, ?_, ?_, ?_⟩
  · intro h
    simp [initialSelected, ValueProp.truthy, h]
  · intro h
    simp [initialSelected, ValueProp.truthy, h]
  · simp [initialSelected, ValueProp.truthy]
  · simp [initialSelected, ValueProp.truthy]

/-- C5, as stated, fails: in single-select mode the initial `value` prop
`["A", "B"]` gives an initial selection of length two. -/
theorem single_select_initial_sequence_kept :
    initialSelected (ValueProp.array [JSVal.str "A", JSVal.str "B"])
      = [JSVal.str "A", JSVal.str "B"] ∧
    selectItems false "fruit" Callback.function Callback.function
        (initialSelected (ValueProp.array [JSVal.str "A", JSVal.str "B"])) []
      = .ok [JSVal.str "A", JSVal.str "B"] ∧
    ¬ ((initialSelected (ValueProp.array [JSVal.str "A", JSVal.str "B"])).length = 0 ∨
       (initialSelected (ValueProp.array [JSVal.str "A", JSVal.str "B"])).length = 1) := by
  refine ⟨by decide, rfl, by decide⟩

/-- C5, amended. In single-select mode the selection has length 0 or 1 in every
state reached from an initial `value` that is a scalar or a sequence of at most
one identifier, and in every state reached after at least one `selectItem`
call whatever the initial `value`. -/
theorem single_select_length (name : String) (cv co : Callback) (value : ValueProp)
    (clicks : List JSVal)
    (h : (∀ xs, value = ValueProp.array xs → xs.length ≤ 1) ∨ clicks ≠ []) :
    ∃ s, selectItems false name cv co (initialSelected value) clicks = .ok s ∧
      (s.length = 0 ∨ s.length = 1) := by
  cases clicks with
  | cons x xs =>
    obtain ⟨y, hy⟩ := selectItems_single_cons name cv co (initialSelected value) x xs
    exact ⟨[y], hy, Or.inr rfl⟩
  | nil =>
    have hv : ∀ xs, value = ValueProp.array xs → xs.length ≤ 1 := by
      rcases h with h | h
      · exact h
      · exact absurd rfl h
    refine ⟨initialSelected value, by simp [selectItems], ?_⟩
    cases value with
    | scalar v =>
      by_cases ht : (ValueProp.scalar v).truthy = true <;> simp [initialSelected, ht]
    | array ys =>
      have := hv ys rfl
      simp only [initialSelected, ValueProp.truthy, if_true]
      omega

/-- Witness for C5 amended: initial `value` `"A"`, then clicks on B and on A. -/
theorem single_select_length_witness :
    ((∀ xs, ValueProp.scalar (JSVal.str "A") = ValueProp.array xs → xs.length ≤ 1) ∨
      [JSVal.str "B", JSVal.str "A"] ≠ []) ∧
    ∃ s, selectItems false "fruit" Callback.function Callback.notFunction
        (initialSelected (ValueProp.scalar (JSVal.str "A"))) [JSVal.str "B", JSVal.str "A"]
        = .ok s ∧ (s.length = 0 ∨ s.length = 1) :=
  ⟨Or.inr (by simp),
   single_select_length "fruit" Callback.function Callback.notFunction
     (ValueProp.scalar (JSVal.str "A")) [JSVal.str "B", JSVal.str "A"] (Or.inr (by simp))⟩

/-- C9. With no options and the initial `value` `"Z"`, computing the
single-select summary raises a `TypeError` (the first resolved entry is
`undefined`), and the multi-select summary reads `"1 selected"`, not the
no-selection label. -/
theorem summaryText_miss :
    getSelectedList [] (initialSelected (ValueProp.scalar (JSVal.str "Z"))) "id" = [none] ∧
    summaryText [] (initialSelected (ValueProp.scalar (JSVal.str "Z"))) "id" false "Select"
      = .error (JSError.typeError "cannot read property name of undefined") ∧
    summaryText [] (initialSelected (ValueProp.scalar (JSVal.str "Z"))) "id" true "Select"
      = .ok (JSVal.str "1 selected") :=
  ⟨rfl, rfl, rfl⟩

end Dropdown
